import Mathlib

/-!
Verification of the scene-creator agent core (src/agent/agent.py) against its
specification. The Python code is shallowly embedded: the image-synthesis HTTP
service, the file system and the mime detector are oracles passed as function
arguments; machine-level concerns (base64 encoding, random uuid filenames) are
abstracted to the identity on the carried data, which no claim inspects.
-/

namespace SceneCreator

/-- Python truthiness of an optional string: None and the empty string are
falsy, every other string is truthy. -/
def strTruthy : Option String → Bool
  | none => false
  | some s => decide (s ≠ "")

/-- A character or background record, as returned by create_character and
create_background (agent.py lines 339-345 and 373-379). The edited flag models
the "edited" key that only edit results carry; create results have it false. -/
structure Entity where
  id : String
  name : String
  description : String
  prompt : String
  imageUrl : Option String
  edited : Bool := false
deriving Repr, DecidableEq

/-- A scene record, as returned by create_scene and edit_scene. -/
structure SceneRec where
  id : String
  name : String
  description : String
  characterIds : List String
  backgroundId : String
  prompt : String
  imageUrl : Option String
  edited : Bool := false
deriving Repr, DecidableEq

/-- A tool executor result: a success record or a structured error dict. -/
inductive ToolResult where
  | entity (e : Entity)
  | scene (s : SceneRec)
  | error (msg : String)
deriving Repr, DecidableEq

/-- Outcome of one HTTP POST inside the retry loop of generate_image
(agent.py lines 149-196): an HTTP response with a status code and the first
inline image of the body (when there is one), or a non-HTTP exception raised
by the transport or by response processing (network fault, malformed body),
which the generic except-clause at line 194 intercepts. -/
inductive SvcResponse where
  | status (code : Nat) (image : Option String)
  | netFault
deriving Repr, DecidableEq

/-- How generate_image completes: a returned value (the image reference, or
None), or an exception propagating with the given HTTP status code. -/
inductive GenOutcome where
  | result (r : Option String)
  | raised (code : Nat)
deriving Repr, DecidableEq

/-- Observable run of generate_image: its completion, the sequence of sleep
durations performed, and how many HTTP attempts were made. -/
structure GenRun where
  outcome : GenOutcome
  sleeps : List Nat
  calls : Nat
deriving Repr, DecidableEq

/-- agent.py line 145. -/
def max_retries : Nat := 3

/-- agent.py line 146 (seconds). -/
def base_wait : Nat := 2

/-- The retry loop of generate_image (agent.py lines 149-199), indexed by the
current attempt number and the remaining loop iterations. A 429 status sleeps
base_wait * 2 ^ attempt and retries; any other non-2xx status makes
raise_for_status throw an HTTPStatusError which is re-raised (line 193); a
non-HTTP exception returns None (line 196); a 2xx response returns its first
inline image part, or None when the body has no image (line 183); an exhausted
loop returns None (line 199). The except-branch for an HTTPStatusError with
code 429 (lines 187-190) is unreachable, because a 429 response is intercepted
at line 155 before raise_for_status runs, so it is not modelled. -/
def generateGo (svc : Nat → SvcResponse) : Nat → Nat → GenRun
  | _, 0 => ⟨.result none, [], 0⟩
  | attempt, n + 1 =>
    match svc attempt with
    | .netFault => ⟨.result none, [], 1⟩
    | .status code image =>
      if code = 429 then
        let rest := generateGo svc (attempt + 1) n
        ⟨rest.outcome, base_wait * 2 ^ attempt :: rest.sleeps, rest.calls + 1⟩
      else if 200 ≤ code ∧ code < 300 then ⟨.result image, [], 1⟩
      else ⟨.raised code, [], 1⟩

/-- generate_image (agent.py lines 84-199) as observed through the service
oracle: the request payload is fixed before the loop, so the per-attempt
behaviour of the service is an oracle indexed by the attempt number. Saving
the returned image bytes under a fresh uuid filename is abstracted away: the
returned reference stands for the persisted image. -/
def generate_image (svc : Nat → SvcResponse) : GenRun :=
  generateGo svc 0 max_retries

/-- One part of the synthesis request body (agent.py lines 100-128). The data
field carries the file bytes; the base64 encoding of the source is elided as
it is a bijection on the carried data. -/
inductive Part where
  | inlineData (mimeType : String) (data : String)
  | text (s : String)
deriving Repr, DecidableEq

/-- img_path.split on the question mark, first component (agent.py line 106). -/
def stripQuery (s : String) : String := (s.splitOn "?").headD s

/-- The parts array built by generate_image (agent.py lines 100-128): each
input image whose file exists contributes an inline-data part, in the order of
input_images, and the text prompt is appended last. The file system is the
oracle fs (path to contents when the file exists), mime models
detect_mime_type and toPath models get_image_path. -/
def buildRequestParts (fs : String → Option String) (mime toPath : String → String)
    (prompt : String) (input_images : List String) : List Part :=
  (input_images.filterMap fun img =>
    match fs (toPath (stripQuery img)) with
    | some bytes => some (Part.inlineData (mime (toPath (stripQuery img))) bytes)
    | none => none)
  ++ [Part.text prompt]

/-- A generate invocation observed at the tool-executor level: its prompt and
its input image references, in request order. -/
structure GenCall where
  prompt : String
  images : List String
deriving Repr, DecidableEq

/-- An edit_image invocation observed at the tool-executor level. -/
structure EditCall where
  imageUrl : String
  instruction : String
deriving Repr, DecidableEq

/-- create_character (agent.py lines 314-345): generates an image from the
prompt, then returns the record; a raised synthesis exception propagates. The
fresh uuid is the character_id argument. This executor has no error branch. -/
def create_character (gen : GenOutcome) (character_id name description prompt : String) :
    Except Nat ToolResult :=
  match gen with
  | .raised code => .error code
  | .result r =>
    .ok (.entity { id := character_id, name := name, description := description,
                   prompt := prompt, imageUrl := r })

/-- create_background (agent.py lines 348-379), identical in shape to
create_character. -/
def create_background (gen : GenOutcome) (background_id name description prompt : String) :
    Except Nat ToolResult :=
  match gen with
  | .raised code => .error code
  | .result r =>
    .ok (.entity { id := background_id, name := name, description := description,
                   prompt := prompt, imageUrl := r })

/-- The character-validation loop of create_scene (agent.py lines 411-417):
walk character_ids in order; a missing character or a falsy imageUrl returns
the structured error immediately, otherwise the image url is collected. The
source wraps the character name in quotes inside the second message; the
quotes are dropped here. -/
def collectCharImages (characters : List Entity) : List String → Except String (List String)
  | [] => .ok []
  | cid :: rest =>
    match characters.find? (fun c => decide (c.id = cid)) with
    | none => .error ("Character with id " ++ cid ++ " not found")
    | some c =>
      match c.imageUrl with
      | none => .error ("Character " ++ c.name ++ " has no image")
      | some u =>
        if u = "" then .error ("Character " ++ c.name ++ " has no image")
        else
          match collectCharImages characters rest with
          | .error e => .error e
          | .ok us => .ok (u :: us)

/-- Resolution used by the spec sentence: the id resolves to a stored entity
whose imageUrl is truthy, under the first-match lookup the source uses. -/
def resolves (col : List Entity) (i : String) : Bool :=
  match col.find? (fun c => decide (c.id = i)) with
  | some c => strTruthy c.imageUrl
  | none => false

/-- create_scene (agent.py lines 382-443): validate every character id, then
the background id, collecting input images; on any validation failure return
the structured error without calling generate; otherwise call generate with
the collected images and return the scene record, whose imageUrl is whatever
generate returned (possibly None). The second component is the list of
generate invocations performed. -/
def create_scene (gen : String → List String → GenOutcome)
    (characters backgrounds : List Entity)
    (scene_id name description prompt : String)
    (character_ids : List String) (background_id : String) :
    Except Nat ToolResult × List GenCall :=
  match collectCharImages characters character_ids with
  | .error e => (.ok (.error e), [])
  | .ok charImgs =>
    match backgrounds.find? (fun b => decide (b.id = background_id)) with
    | none => (.ok (.error ("Background with id " ++ background_id ++ " not found")), [])
    | some bg =>
      match bg.imageUrl with
      | none => (.ok (.error ("Background " ++ bg.name ++ " has no image")), [])
      | some bu =>
        if bu = "" then (.ok (.error ("Background " ++ bg.name ++ " has no image")), [])
        else
          let input_images := charImgs ++ [bu]
          match gen prompt input_images with
          | .raised code => (.error code, [⟨prompt, input_images⟩])
          | .result r =>
            (.ok (.scene { id := scene_id, name := name, description := description,
                           characterIds := character_ids, backgroundId := background_id,
                           prompt := prompt, imageUrl := r }), [⟨prompt, input_images⟩])

/-- Image lookup in the regenerate branch of edit_scene (agent.py lines
579-582): a character id that does not resolve to a stored character with a
truthy imageUrl contributes nothing, silently. -/
def resolveCharImg (characters : List Entity) (cid : String) : Option String :=
  match characters.find? (fun c => decide (c.id = cid)) with
  | some c => if strTruthy c.imageUrl then c.imageUrl else none
  | none => none

/-- Background image lookup in the regenerate branch of edit_scene (agent.py
lines 585-587), with the same silent-skip behaviour. -/
def resolveBgImg (backgrounds : List Entity) (bid : String) : Option String :=
  match backgrounds.find? (fun b => decide (b.id = bid)) with
  | some b => if strTruthy b.imageUrl then b.imageUrl else none
  | none => none

/-- The source image set of the regenerate branch (agent.py lines 576-587):
the resolving character images in char_ids order, then the background image
when it resolves. Note this takes no scene record: the previous scene image
never enters the set. -/
def sourceImages (characters backgrounds : List Entity)
    (char_ids : List String) (bg_id : String) : List String :=
  char_ids.filterMap (resolveCharImg characters) ++ (resolveBgImg backgrounds bg_id).toList

/-- The instruction string edit_scene wraps around the edit description in the
direct-edit branch (agent.py line 621). -/
def sceneEditInstruction (ed : String) : String :=
  "Edit this scene image: " ++ ed ++ ". Keep the same composition but apply the requested changes."

/-- edit_scene (agent.py lines 540-637). The two oracles are generate_image
and edit_image; the second and third components of the result are the lists
of generate and edit invocations performed. With regenerate_from_sources
true: character and background id lists default to the stored ones unless
overridden, the source image set is recomputed from the stores, an empty set
is a structured error, and a successful generation replaces characterIds,
backgroundId, prompt and imageUrl. With it false: a falsy scene imageUrl is a
structured error before any synthesis call, otherwise edit_image runs on the
existing scene image and characterIds, backgroundId and prompt are kept. -/
def edit_scene (gen : String → List String → GenOutcome)
    (editI : String → String → GenOutcome)
    (scenes : List SceneRec) (characters backgrounds : List Entity)
    (scene_id edit_description : String) (regenerate_from_sources : Bool)
    (new_character_ids : Option (List String)) (new_background_id : Option String) :
    Except Nat ToolResult × List GenCall × List EditCall :=
  match scenes.find? (fun s => decide (s.id = scene_id)) with
  | none => (.ok (.error ("Scene with id " ++ scene_id ++ " not found")), [], [])
  | some scene =>
    if regenerate_from_sources then
      let char_ids := new_character_ids.getD scene.characterIds
      let bg_id := new_background_id.getD scene.backgroundId
      let input_images := sourceImages characters backgrounds char_ids bg_id
      if input_images = [] then
        (.ok (.error "No source images found for regeneration"), [], [])
      else
        match gen edit_description input_images with
        | .raised code => (.error code, [⟨edit_description, input_images⟩], [])
        | .result none =>
          (.ok (.error "Failed to regenerate scene"), [⟨edit_description, input_images⟩], [])
        | .result (some newUrl) =>
          if newUrl = "" then
            (.ok (.error "Failed to regenerate scene"), [⟨edit_description, input_images⟩], [])
          else
            (.ok (.scene { id := scene.id, name := scene.name,
                           description := scene.description,
                           characterIds := char_ids, backgroundId := bg_id,
                           prompt := edit_description, imageUrl := some newUrl,
                           edited := true }),
             [⟨edit_description, input_images⟩], [])
    else
      match scene.imageUrl with
      | none => (.ok (.error "Scene has no image to edit"), [], [])
      | some u =>
        if u = "" then (.ok (.error "Scene has no image to edit"), [], [])
        else
          match editI u (sceneEditInstruction edit_description) with
          | .raised code => (.error code, [], [⟨u, sceneEditInstruction edit_description⟩])
          | .result none =>
            (.ok (.error "Failed to edit image"), [], [⟨u, sceneEditInstruction edit_description⟩])
          | .result (some editedUrl) =>
            if editedUrl = "" then
              (.ok (.error "Failed to edit image"), [], [⟨u, sceneEditInstruction edit_description⟩])
            else
              (.ok (.scene { id := scene.id, name := scene.name,
                             description := scene.description,
                             characterIds := scene.characterIds,
                             backgroundId := scene.backgroundId,
                             prompt := scene.prompt, imageUrl := some editedUrl,
                             edited := true }),
               [], [⟨u, sceneEditInstruction edit_description⟩])

/-- A parsed tool-result dict as the merge node sees it (agent.py lines
794-832): the merge only inspects the presence of the id key, the id value,
and the truthiness of the error value; the rest of the dict is opaque payload,
represented by a tag so that distinct records stay distinct. id? is none
exactly when the dict has no id key; error is none when it has no error key,
and some of the carried string otherwise. -/
structure MDict where
  id? : Option String
  error : Option String
  payload : Nat
deriving Repr, DecidableEq

/-- Python truthiness of result.get with the error key: absent or empty means
falsy. -/
def errTruthy : Option String → Bool
  | none => false
  | some s => decide (s ≠ "")

/-- The create-tool merge (agent.py lines 805-813): requires the id key, then
appends unless some stored entry already carries that id. -/
def upsertCreate (col : List MDict) (r : MDict) : List MDict :=
  match r.id? with
  | none => col
  | some _ => if col.any (fun c => decide (c.id? = r.id?)) then col else col ++ [r]

/-- The in-place replacement loop of the edit-tool merge (agent.py lines
816-829): replace the first stored entry whose id matches, then stop. -/
def replaceFirstById (r : MDict) : List MDict → List MDict
  | [] => []
  | c :: rest =>
    if c.id? = r.id? then r :: rest else c :: replaceFirstById r rest

/-- The edit-tool merge (agent.py lines 815-829): requires the id key and a
falsy error value, then replaces the matching entry in place. -/
def upsertEdit (col : List MDict) (r : MDict) : List MDict :=
  if r.id?.isSome ∧ errTruthy r.error = false then replaceFirstById r col else col

/-- Dispatch of one tool-result message onto the three collections (the
elif-chain of agent.py lines 805-829); an unrecognised tool name changes
nothing. -/
def mergeStep (t : String) (r : MDict) (chars bgs scenes : List MDict) :
    List MDict × List MDict × List MDict :=
  if t = "create_character" then (upsertCreate chars r, bgs, scenes)
  else if t = "create_background" then (chars, upsertCreate bgs r, scenes)
  else if t = "create_scene" then (chars, bgs, upsertCreate scenes r)
  else if t = "edit_character" then (upsertEdit chars r, bgs, scenes)
  else if t = "edit_background" then (chars, upsertEdit bgs r, scenes)
  else if t = "edit_scene" then (chars, bgs, upsertEdit scenes r)
  else (chars, bgs, scenes)

/-- process_tool_results (agent.py lines 783-841) on the parsed tool-result
messages in arrival order, threading the three collections; messages whose
content does not parse as a dict are absent from the input list, matching the
silent skip at lines 831-832. -/
def process_tool_results : List (String × MDict) →
    List MDict → List MDict → List MDict → List MDict × List MDict × List MDict
  | [], chars, bgs, scenes => (chars, bgs, scenes)
  | (t, r) :: rest, chars, bgs, scenes =>
    let next := mergeStep t r chars bgs scenes
    process_tool_results rest next.1 next.2.1 next.2.2

/-! ## Theorems -/

/-- Unfolding equation of the loop for an HTTP response at the current
attempt. -/
theorem generateGo_status (svc : Nat → SvcResponse) (a n code : Nat)
    (image : Option String) (h : svc a = .status code image) :
    generateGo svc a (n + 1) =
      if code = 429 then
        ⟨(generateGo svc (a + 1) n).outcome,
         base_wait * 2 ^ a :: (generateGo svc (a + 1) n).sleeps,
         (generateGo svc (a + 1) n).calls + 1⟩
      else if 200 ≤ code ∧ code < 300 then ⟨.result image, [], 1⟩
      else ⟨.raised code, [], 1⟩ := by
  rw [generateGo, h]

/-- Unfolding equation of the loop for a non-HTTP fault at the current
attempt. -/
theorem generateGo_netFault (svc : Nat → SvcResponse) (a n : Nat)
    (h : svc a = .netFault) :
    generateGo svc a (n + 1) = ⟨.result none, [], 1⟩ := by
  rw [generateGo, h]

/-- The loop makes at most as many HTTP attempts as it has iterations left. -/
theorem generateGo_calls_le (svc : Nat → SvcResponse) :
    ∀ n a, (generateGo svc a n).calls ≤ n := by
  intro n
  induction n with
  | zero => intro a; simp [generateGo]
  | succ n ih =>
    intro a
    rcases hsvc : svc a with ⟨code, image⟩ | _
    · rw [generateGo_status svc a n code image hsvc]
      by_cases h429 : code = 429
      · rw [if_pos h429]
        exact Nat.succ_le_succ (ih (a + 1))
      · rw [if_neg h429]
        split
        · exact Nat.succ_le_succ (Nat.zero_le n)
        · exact Nat.succ_le_succ (Nat.zero_le n)
    · rw [generateGo_netFault svc a n hsvc]
      exact Nat.succ_le_succ (Nat.zero_le n)

/-- C2: generate retries a rate-limited (429) call up to 3 attempts total with
sleeps of base_wait * 2 ^ attempt (base_wait = 2): a service rate-limiting the
first two attempts and succeeding on the third completes with the image after
exactly 3 attempts and observed sleeps 2 then 4; a service that always
rate-limits exhausts the 3 attempts and returns None, not an exception. -/
theorem generate_image_retry_backoff :
    (∀ svc : Nat → SvcResponse, (generate_image svc).calls ≤ max_retries) ∧
    (∀ (svc : Nat → SvcResponse) (b0 b1 : Option String) (u : String),
      svc 0 = .status 429 b0 → svc 1 = .status 429 b1 →
      svc 2 = .status 200 (some u) →
      generate_image svc = ⟨.result (some u), [2, 4], 3⟩) ∧
    (∀ (svc : Nat → SvcResponse) (b : Nat → Option String),
      (∀ i, svc i = .status 429 (b i)) →
      generate_image svc = ⟨.result none, [2, 4, 8], 3⟩) := by
  refine ⟨fun svc => generateGo_calls_le svc max_retries 0, ?_, ?_⟩
  · intro svc b0 b1 u h0 h1 h2
    show generateGo svc 0 3 = _
    rw [generateGo_status svc 0 2 429 b0 h0, if_pos rfl,
        generateGo_status svc 1 1 429 b1 h1, if_pos rfl,
        generateGo_status svc 2 0 200 (some u) h2]
    norm_num [base_wait]
  · intro svc b h
    show generateGo svc 0 3 = _
    rw [generateGo_status svc 0 2 429 (b 0) (h 0), if_pos rfl,
        generateGo_status svc 1 1 429 (b 1) (h 1), if_pos rfl,
        generateGo_status svc 2 0 429 (b 2) (h 2), if_pos rfl]
    norm_num [base_wait, generateGo]

/-- Witness for C2: the scenario services evaluated concretely. -/
theorem generate_image_retry_backoff_witness :
    generate_image (fun i => if i < 2 then .status 429 none else .status 200 (some "ref"))
      = ⟨.result (some "ref"), [2, 4], 3⟩ ∧
    generate_image (fun _ => .status 429 none) = ⟨.result none, [2, 4, 8], 3⟩ :=
  ⟨generate_image_retry_backoff.2.1
      (fun i => if i < 2 then .status 429 none else .status 200 (some "ref"))
      none none "ref" (by decide) (by decide) (by decide),
   generate_image_retry_backoff.2.2 (fun _ => .status 429 none) (fun _ => none)
      (fun _ => rfl)⟩

/-- Counterexample to C3: a network fault on the first attempt (a non-HTTP
exception from the transport) does not propagate as an exception out of
generate: the generic except-clause at agent.py line 194 converts it into a
silent None result after a single attempt. -/
theorem generate_image_network_fault_cex :
    generate_image (fun _ => SvcResponse.netFault) = ⟨.result none, [], 1⟩ := by
  decide

/-- C3 amended: a non-429, non-2xx HTTP status is not retried and propagates
as a raised exception after a single attempt with no sleeping; a non-HTTP
fault (network error, malformed body) is likewise not retried, but it is
converted into a None result rather than propagating as an exception. -/
theorem generate_image_failure_modes (svc : Nat → SvcResponse) (code : Nat)
    (image : Option String) :
    (svc 0 = .status code image → code ≠ 429 → ¬(200 ≤ code ∧ code < 300) →
      generate_image svc = ⟨.raised code, [], 1⟩) ∧
    (svc 0 = .netFault → generate_image svc = ⟨.result none, [], 1⟩) := by
  constructor
  · intro h0 h429 h2xx
    show generateGo svc 0 3 = _
    rw [generateGo_status svc 0 2 code image h0, if_neg h429, if_neg h2xx]
  · intro h0
    show generateGo svc 0 3 = _
    rw [generateGo_netFault svc 0 2 h0]

/-- Witness for C3 amended: a 500 on the first attempt raises at once. -/
theorem generate_image_failure_modes_witness :
    generate_image (fun _ => SvcResponse.status 500 none) = ⟨.raised 500, [], 1⟩ :=
  (generate_image_failure_modes (fun _ => SvcResponse.status 500 none) 500 none).1
    rfl (by decide) (by decide)

/-- If some id in the list does not resolve to a character with a truthy
image, the validation loop of create_scene fails with a structured error. -/
theorem collectCharImages_error_of_unresolved (characters : List Entity) :
    ∀ ids : List String, ∀ cid ∈ ids, resolves characters cid = false →
      ∃ e, collectCharImages characters ids = .error e := by
  intro ids
  induction ids with
  | nil => intro cid h; simp at h
  | cons hd rest ih =>
    intro cid hmem hbad
    rcases List.mem_cons.mp hmem with heq | hr
    · subst heq
      rw [collectCharImages]
      rw [resolves] at hbad
      rcases hfind : characters.find? (fun c => decide (c.id = cid)) with _ | c
      · simp only [hfind]
        exact ⟨_, rfl⟩
      · rw [hfind] at hbad
        have hb : strTruthy c.imageUrl = false := hbad
        simp only [hfind]
        rcases himg : c.imageUrl with _ | u
        · simp only [himg]
          exact ⟨_, rfl⟩
        · rw [himg] at hb
          simp only [strTruthy, decide_eq_false_iff_not, not_not] at hb
          subst hb
          simp only [himg, if_pos rfl]
          exact ⟨_, rfl⟩
    · rw [collectCharImages]
      rcases hfind : characters.find? (fun c => decide (c.id = hd)) with _ | c
      · simp only [hfind]
        exact ⟨_, rfl⟩
      · simp only [hfind]
        rcases himg : c.imageUrl with _ | u
        · simp only [himg]
          exact ⟨_, rfl⟩
        · simp only [himg]
          by_cases hu : u = ""
          · rw [if_pos hu]
            exact ⟨_, rfl⟩
          · rw [if_neg hu]
            obtain ⟨e, he⟩ := ih cid hr hbad
            rw [he]
            exact ⟨e, rfl⟩

/-- C1: when some character id does not resolve to a stored character with a
truthy imageUrl, or the background id does not resolve to a stored background
with a truthy imageUrl, create_scene returns a structured error record and
performs no generate invocation. -/
theorem create_scene_referential_integrity
    (gen : String → List String → GenOutcome)
    (characters backgrounds : List Entity)
    (scene_id name description prompt : String)
    (character_ids : List String) (background_id : String)
    (hbad : (∃ cid ∈ character_ids, resolves characters cid = false) ∨
            resolves backgrounds background_id = false) :
    ∃ msg, create_scene gen characters backgrounds scene_id name description prompt
        character_ids background_id = (.ok (.error msg), []) := by
  rcases hbad with ⟨cid, hmem, hres⟩ | hres
  · obtain ⟨e, he⟩ :=
      collectCharImages_error_of_unresolved characters character_ids cid hmem hres
    rw [create_scene, he]
    exact ⟨e, rfl⟩
  · rw [create_scene]
    rcases hc : collectCharImages characters character_ids with e | us
    · exact ⟨e, rfl⟩
    · simp only [hc]
      rw [resolves] at hres
      rcases hfind : backgrounds.find? (fun b => decide (b.id = background_id)) with _ | bg
      · simp only [hfind]
        exact ⟨_, rfl⟩
      · rw [hfind] at hres
        have hb : strTruthy bg.imageUrl = false := hres
        simp only [hfind]
        rcases himg : bg.imageUrl with _ | u
        · simp only [himg]
          exact ⟨_, rfl⟩
        · rw [himg] at hb
          simp only [strTruthy, decide_eq_false_iff_not, not_not] at hb
          subst hb
          simp only [himg, if_pos rfl]
          exact ⟨_, rfl⟩

/-- Witness for C1: a scene referencing a character absent from an empty
store errors without any generate call. -/
theorem create_scene_referential_integrity_witness :
    ∃ msg, create_scene (fun _ _ => GenOutcome.result none) [] [] "s" "n" "d" "p"
        ["c1"] "b1" = (.ok (.error msg), []) :=
  create_scene_referential_integrity (fun _ _ => GenOutcome.result none) [] []
    "s" "n" "d" "p" ["c1"] "b1" (Or.inl ⟨"c1", by decide, by decide⟩)

/-- Whether an executor outcome is a structured error dict. -/
def isErrorResult : Except Nat ToolResult → Bool
  | .ok (.error _) => true
  | _ => false

/-- C7: create_character and create_background always return the fully
populated success record carrying the fresh id and the given name,
description and prompt, with imageUrl exactly the synthesis result (the
reference on success, None on a soft synthesis failure); neither executor
ever produces a structured error record. -/
theorem create_records_success (r : Option String) (g : GenOutcome)
    (i n d p : String) :
    create_character (.result r) i n d p = .ok (.entity ⟨i, n, d, p, r, false⟩) ∧
    create_background (.result r) i n d p = .ok (.entity ⟨i, n, d, p, r, false⟩) ∧
    isErrorResult (create_character g i n d p) = false ∧
    isErrorResult (create_background g i n d p) = false := by
  refine ⟨rfl, rfl, ?_, ?_⟩ <;> cases g <;> rfl

/-- The in-place replacement loop leaves a collection with no matching id
unchanged. -/
theorem replaceFirstById_of_forall_ne (r : MDict) :
    ∀ col : List MDict, (∀ c ∈ col, c.id? ≠ r.id?) → replaceFirstById r col = col := by
  intro col
  induction col with
  | nil => intro _; rfl
  | cons c rest ih =>
    intro h
    rw [replaceFirstById, if_neg (h c (List.mem_cons_self c rest)),
        ih fun d hd => h d (List.mem_cons_of_mem c hd)]

/-- Pointwise-identity map when no element matches the id. -/
theorem map_replace_id_of_no_match (r : MDict) (rid : String) :
    ∀ col : List MDict, (∀ c ∈ col, ¬c.id? = some rid) →
      col.map (fun c => if c.id? = some rid then r else c) = col := by
  intro col
  induction col with
  | nil => intro _; rfl
  | cons c rest ih =>
    intro h
    rw [List.map_cons, if_neg (h c (List.mem_cons_self c rest)),
        ih fun d hd => h d (List.mem_cons_of_mem c hd)]

/-- When at most one stored entry matches the id, the first-match in-place
replacement is the pointwise overwrite of the matching entry. -/
theorem replaceFirstById_eq_map (r : MDict) (rid : String) (hid : r.id? = some rid) :
    ∀ col : List MDict,
      (col.filter (fun c => decide (c.id? = some rid))).length ≤ 1 →
      replaceFirstById r col = col.map (fun c => if c.id? = some rid then r else c) := by
  intro col
  induction col with
  | nil => intro _; rfl
  | cons c rest ih =>
    intro hlen
    by_cases hc : c.id? = some rid
    · have hfil : (c :: rest).filter (fun c => decide (c.id? = some rid))
          = c :: rest.filter (fun c => decide (c.id? = some rid)) :=
        List.filter_cons_of_pos (by simpa using hc)
      rw [hfil, List.length_cons] at hlen
      have hrest : rest.filter (fun c => decide (c.id? = some rid)) = [] :=
        List.length_eq_zero.mp (Nat.le_zero.mp (Nat.le_of_succ_le_succ hlen))
      have hnone : ∀ d ∈ rest, ¬d.id? = some rid := by
        intro d hd hdid
        have hmem : d ∈ rest.filter (fun c => decide (c.id? = some rid)) :=
          List.mem_filter.mpr ⟨hd, by simpa using hdid⟩
        rw [hrest] at hmem
        simp at hmem
      rw [replaceFirstById, if_pos (by rw [hc, hid]), List.map_cons, if_pos hc,
          map_replace_id_of_no_match r rid rest hnone]
    · have hfil : (c :: rest).filter (fun c => decide (c.id? = some rid))
          = rest.filter (fun c => decide (c.id? = some rid)) :=
        List.filter_cons_of_neg (by simpa using hc)
      rw [hfil] at hlen
      rw [replaceFirstById, if_neg (by rw [hid]; exact hc), List.map_cons, if_neg hc,
          ih hlen]

/-- C4: the merge upsert is keyed by id. Merging a create result whose id is
already stored leaves the collection unchanged; merging the same create
result twice equals merging it once; a create result merged into a collection
without its id yields exactly one entry with that id; an edit result whose id
is not stored is a no-op; and an edit result whose id is stored (at most
once, as id uniqueness guarantees) overwrites exactly the matching entry in
place, preserving collection order. -/
theorem upsert_keyed_by_id (col : List MDict) (r : MDict) (rid : String) :
    (r.id? = some rid → (∃ c ∈ col, c.id? = some rid) → upsertCreate col r = col) ∧
    (upsertCreate (upsertCreate col r) r = upsertCreate col r) ∧
    (r.id? = some rid → (∀ c ∈ col, c.id? ≠ some rid) →
      ((upsertCreate col r).filter (fun c => decide (c.id? = some rid))).length = 1) ∧
    (r.id? = some rid → (∀ c ∈ col, c.id? ≠ some rid) → upsertEdit col r = col) ∧
    (r.id? = some rid → errTruthy r.error = false →
      (col.filter (fun c => decide (c.id? = some rid))).length ≤ 1 →
      upsertEdit col r = col.map (fun c => if c.id? = some rid then r else c)) := by
  refine ⟨?_, ?_, ?_, ?_, ?_⟩
  · intro hid hex
    obtain ⟨c, hc, hcid⟩ := hex
    simp only [upsertCreate, hid, List.any_eq_true, decide_eq_true_eq]
    rw [if_pos ⟨c, hc, hcid⟩]
  · rcases hid : r.id? with _ | rid0
    · simp [upsertCreate, hid]
    · by_cases hex : ∃ x ∈ col, x.id? = some rid0
      · have h1 : upsertCreate col r = col := by
          simp only [upsertCreate, hid, List.any_eq_true, decide_eq_true_eq]
          rw [if_pos hex]
        rw [h1, h1]
      · have h1 : upsertCreate col r = col ++ [r] := by
          simp only [upsertCreate, hid, List.any_eq_true, decide_eq_true_eq]
          rw [if_neg hex]
        rw [h1]
        simp only [upsertCreate, hid, List.any_eq_true, decide_eq_true_eq]
        rw [if_pos ⟨r, by simp, hid⟩]
  · intro hid hnone
    have h1 : upsertCreate col r = col ++ [r] := by
      simp only [upsertCreate, hid, List.any_eq_true, decide_eq_true_eq]
      rw [if_neg]
      rintro ⟨c, hc, hcid⟩
      exact hnone c hc hcid
    rw [h1, List.filter_append]
    have hfc : col.filter (fun c => decide (c.id? = some rid)) = [] :=
      List.filter_eq_nil_iff.mpr fun c hc => by simpa using hnone c hc
    rw [hfc]
    simp [hid]
  · intro hid hnone
    rw [upsertEdit]
    by_cases herr : errTruthy r.error = false
    · rw [if_pos ⟨by rw [hid]; rfl, herr⟩]
      exact replaceFirstById_of_forall_ne r col fun c hc => by
        rw [hid]; exact hnone c hc
    · rw [if_neg fun hcond => herr hcond.2]
  · intro hid herr hlen
    rw [upsertEdit, if_pos ⟨by rw [hid]; rfl, herr⟩]
    exact replaceFirstById_eq_map r rid hid col hlen

/-- Witness for C4: an edit result overwrites the single stored entry with
its id in place. -/
theorem upsert_keyed_by_id_witness :
    upsertEdit [⟨some "x", none, 0⟩, ⟨some "y", none, 1⟩] ⟨some "x", none, 2⟩
      = [⟨some "x", none, 2⟩, ⟨some "y", none, 1⟩] := by
  have h := (upsert_keyed_by_id [⟨some "x", none, 0⟩, ⟨some "y", none, 1⟩]
    ⟨some "x", none, 2⟩ "x").2.2.2.2 rfl rfl (by decide)
  rw [h]
  decide

/-- Counterexample to C9: the create-tool merge branches check only the
presence of the id key, not the error field (agent.py lines 805-813), so a
create_character result carrying both an id and an error field is appended to
the characters collection rather than being skipped. -/
theorem merge_error_result_cex :
    process_tool_results [("create_character", ⟨some "x", some "boom", 0⟩)] [] [] []
      = ([⟨some "x", some "boom", 0⟩], [], []) := by
  decide

/-- C9 amended: a tool result lacking an id field leaves all three
collections unchanged for every tool name; for the three edit tools a result
whose error field is truthy is also skipped; and the error records the
executors actually produce, which carry an error message and no id, leave the
collections unchanged under every tool name. A create-tool result carrying
both an id and an error field is nonetheless appended (see the
counterexample), which the executors never emit. -/
theorem merge_error_results_amended (t : String) (r : MDict)
    (chars bgs scenes : List MDict) :
    (r.id? = none → process_tool_results [(t, r)] chars bgs scenes
      = (chars, bgs, scenes)) ∧
    ((t = "edit_character" ∨ t = "edit_background" ∨ t = "edit_scene") →
      errTruthy r.error = true →
      process_tool_results [(t, r)] chars bgs scenes = (chars, bgs, scenes)) ∧
    (∀ msg, process_tool_results [(t, MDict.mk none (some msg) 0)] chars bgs scenes
      = (chars, bgs, scenes)) := by
  have step_id : ∀ s : MDict, s.id? = none →
      mergeStep t s chars bgs scenes = (chars, bgs, scenes) := by
    intro s hs
    have hc : ∀ col, upsertCreate col s = col := fun col => by
      simp [upsertCreate, hs]
    have he : ∀ col, upsertEdit col s = col := fun col => by
      simp [upsertEdit, hs]
    rw [mergeStep]
    split_ifs <;> simp [hc, he]
  have run_of_step : ∀ s : MDict, mergeStep t s chars bgs scenes = (chars, bgs, scenes) →
      process_tool_results [(t, s)] chars bgs scenes = (chars, bgs, scenes) := by
    intro s hstep
    show process_tool_results [(t, s)] chars bgs scenes = (chars, bgs, scenes)
    simp only [process_tool_results, hstep]
  refine ⟨?_, ?_, ?_⟩
  · intro hid
    exact run_of_step r (step_id r hid)
  · intro ht herr
    have he : ∀ col, upsertEdit col r = col := fun col => by
      rw [upsertEdit, if_neg]
      intro hcond
      rw [herr] at hcond
      exact absurd hcond.2 (by simp)
    refine run_of_step r ?_
    rcases ht with rfl | rfl | rfl
    · rw [mergeStep, if_neg (by decide), if_neg (by decide), if_neg (by decide),
          if_pos rfl, he]
    · rw [mergeStep, if_neg (by decide), if_neg (by decide), if_neg (by decide),
          if_neg (by decide), if_pos rfl, he]
    · rw [mergeStep, if_neg (by decide), if_neg (by decide), if_neg (by decide),
          if_neg (by decide), if_neg (by decide), if_pos rfl, he]
  · intro msg
    exact run_of_step (MDict.mk none (some msg) 0) (step_id (MDict.mk none (some msg) 0) rfl)

/-- Witness for C9 amended: an edit_scene error result with a truthy error
field leaves the collections untouched. -/
theorem merge_error_results_amended_witness :
    process_tool_results [("edit_scene", ⟨some "s1", some "failed", 0⟩)]
      [⟨some "c1", none, 0⟩] [] [⟨some "s1", none, 1⟩]
      = ([⟨some "c1", none, 0⟩], [], [⟨some "s1", none, 1⟩]) :=
  (merge_error_results_amended "edit_scene" ⟨some "s1", some "failed", 0⟩
    [⟨some "c1", none, 0⟩] [] [⟨some "s1", none, 1⟩]).2.1
    (Or.inr (Or.inr rfl)) (by decide)

/-- Unfolding of the regenerate branch of edit_scene once the scene is
found. -/
theorem edit_scene_regen_eq (gen : String → List String → GenOutcome)
    (editI : String → String → GenOutcome)
    (scenes : List SceneRec) (characters backgrounds : List Entity)
    (scene_id ed : String) (nci : Option (List String)) (nbi : Option String)
    (scene : SceneRec)
    (hfind : scenes.find? (fun s => decide (s.id = scene_id)) = some scene) :
    edit_scene gen editI scenes characters backgrounds scene_id ed true nci nbi
      = (if sourceImages characters backgrounds (nci.getD scene.characterIds)
            (nbi.getD scene.backgroundId) = [] then
          (.ok (.error "No source images found for regeneration"), [], [])
        else
          match gen ed (sourceImages characters backgrounds (nci.getD scene.characterIds)
              (nbi.getD scene.backgroundId)) with
          | .raised code =>
            (.error code, [⟨ed, sourceImages characters backgrounds
              (nci.getD scene.characterIds) (nbi.getD scene.backgroundId)⟩], [])
          | .result none =>
            (.ok (.error "Failed to regenerate scene"),
             [⟨ed, sourceImages characters backgrounds (nci.getD scene.characterIds)
                (nbi.getD scene.backgroundId)⟩], [])
          | .result (some newUrl) =>
            if newUrl = "" then
              (.ok (.error "Failed to regenerate scene"),
               [⟨ed, sourceImages characters backgrounds (nci.getD scene.characterIds)
                  (nbi.getD scene.backgroundId)⟩], [])
            else
              (.ok (.scene { id := scene.id, name := scene.name,
                             description := scene.description,
                             characterIds := nci.getD scene.characterIds,
                             backgroundId := nbi.getD scene.backgroundId,
                             prompt := ed, imageUrl := some newUrl, edited := true }),
               [⟨ed, sourceImages characters backgrounds (nci.getD scene.characterIds)
                  (nbi.getD scene.backgroundId)⟩], [])) := by
  rw [edit_scene, hfind]
  exact rfl

/-- Unfolding of the direct-edit branch of edit_scene once the scene is
found. -/
theorem edit_scene_direct_eq (gen : String → List String → GenOutcome)
    (editI : String → String → GenOutcome)
    (scenes : List SceneRec) (characters backgrounds : List Entity)
    (scene_id ed : String) (nci : Option (List String)) (nbi : Option String)
    (scene : SceneRec)
    (hfind : scenes.find? (fun s => decide (s.id = scene_id)) = some scene) :
    edit_scene gen editI scenes characters backgrounds scene_id ed false nci nbi
      = (match scene.imageUrl with
        | none => (.ok (.error "Scene has no image to edit"), [], [])
        | some u =>
          if u = "" then (.ok (.error "Scene has no image to edit"), [], [])
          else
            match editI u (sceneEditInstruction ed) with
            | .raised code => (.error code, [], [⟨u, sceneEditInstruction ed⟩])
            | .result none =>
              (.ok (.error "Failed to edit image"), [], [⟨u, sceneEditInstruction ed⟩])
            | .result (some eu) =>
              if eu = "" then
                (.ok (.error "Failed to edit image"), [], [⟨u, sceneEditInstruction ed⟩])
              else
                (.ok (.scene { id := scene.id, name := scene.name,
                               description := scene.description,
                               characterIds := scene.characterIds,
                               backgroundId := scene.backgroundId,
                               prompt := scene.prompt, imageUrl := some eu,
                               edited := true }),
                 [], [⟨u, sceneEditInstruction ed⟩])) := by
  rw [edit_scene, hfind]
  exact rfl

/-- Every image in the recomputed source set is the stored image of some
character or background. -/
theorem sourceImages_mem (characters backgrounds : List Entity)
    (cids : List String) (bid : String) (u : String)
    (hu : u ∈ sourceImages characters backgrounds cids bid) :
    (∃ c ∈ characters, c.imageUrl = some u) ∨
    (∃ b ∈ backgrounds, b.imageUrl = some u) := by
  rw [sourceImages, List.mem_append] at hu
  rcases hu with h | h
  · left
    obtain ⟨cid, _, hres⟩ := List.mem_filterMap.mp h
    rw [resolveCharImg] at hres
    rcases hfind : characters.find? (fun c => decide (c.id = cid)) with _ | c
    · rw [hfind] at hres
      exact absurd hres (by simp)
    · simp only [hfind] at hres
      cases hst : strTruthy c.imageUrl
      · rw [hst] at hres
        simp at hres
      · rw [hst] at hres
        simp only [if_true] at hres
        exact ⟨c, List.mem_of_find?_eq_some hfind, hres⟩
  · right
    rcases hr : resolveBgImg backgrounds bid with _ | v
    · rw [hr] at h
      simp at h
    · rw [hr] at h
      simp only [Option.toList_some, List.mem_singleton] at h
      subst h
      rw [resolveBgImg] at hr
      rcases hfind : backgrounds.find? (fun b => decide (b.id = bid)) with _ | b
      · rw [hfind] at hr
        exact absurd hr (by simp)
      · simp only [hfind] at hr
        cases hst : strTruthy b.imageUrl
        · rw [hst] at hr
          simp at hr
        · rw [hst] at hr
          simp only [if_true] at hr
          exact ⟨b, List.mem_of_find?_eq_some hfind, hr⟩

/-- C5: with regenerate_from_sources true on a found scene, the generate
request is built solely from the possibly overridden character and background
id lists resolved against the stores (the previous scene image never enters
it, and every request image is a stored character or background image);
edit_image is never called; an empty resolved source set is a structured
error with no synthesis call; and a successful generation replaces
characterIds, backgroundId, prompt and imageUrl with the new values. -/
theorem edit_scene_regenerate_from_sources (gen : String → List String → GenOutcome)
    (editI : String → String → GenOutcome)
    (scenes : List SceneRec) (characters backgrounds : List Entity)
    (scene_id ed : String) (nci : Option (List String)) (nbi : Option String)
    (scene : SceneRec)
    (hfind : scenes.find? (fun s => decide (s.id = scene_id)) = some scene) :
    (sourceImages characters backgrounds (nci.getD scene.characterIds)
        (nbi.getD scene.backgroundId) = [] →
      edit_scene gen editI scenes characters backgrounds scene_id ed true nci nbi
        = (.ok (.error "No source images found for regeneration"), [], [])) ∧
    (sourceImages characters backgrounds (nci.getD scene.characterIds)
        (nbi.getD scene.backgroundId) ≠ [] →
      (edit_scene gen editI scenes characters backgrounds scene_id ed true nci nbi).2
        = ([⟨ed, sourceImages characters backgrounds (nci.getD scene.characterIds)
              (nbi.getD scene.backgroundId)⟩], [])) ∧
    (∀ newUrl, newUrl ≠ "" →
      sourceImages characters backgrounds (nci.getD scene.characterIds)
        (nbi.getD scene.backgroundId) ≠ [] →
      gen ed (sourceImages characters backgrounds (nci.getD scene.characterIds)
        (nbi.getD scene.backgroundId)) = .result (some newUrl) →
      edit_scene gen editI scenes characters backgrounds scene_id ed true nci nbi
        = (.ok (.scene { id := scene.id, name := scene.name,
                         description := scene.description,
                         characterIds := nci.getD scene.characterIds,
                         backgroundId := nbi.getD scene.backgroundId,
                         prompt := ed, imageUrl := some newUrl, edited := true }),
           [⟨ed, sourceImages characters backgrounds (nci.getD scene.characterIds)
              (nbi.getD scene.backgroundId)⟩], [])) ∧
    (∀ u ∈ sourceImages characters backgrounds (nci.getD scene.characterIds)
        (nbi.getD scene.backgroundId),
      (∃ c ∈ characters, c.imageUrl = some u) ∨
      (∃ b ∈ backgrounds, b.imageUrl = some u)) := by
  rw [edit_scene_regen_eq gen editI scenes characters backgrounds scene_id ed nci nbi
    scene hfind]
  refine ⟨?_, ?_, ?_, ?_⟩
  · intro h0
    rw [if_pos h0]
  · intro hne
    rw [if_neg hne]
    split
    · rfl
    · rfl
    · split
      · rfl
      · rfl
  · intro newUrl hu hne hgen
    rw [if_neg hne, hgen]
    exact if_neg hu
  · intro u hu
    exact sourceImages_mem characters backgrounds (nci.getD scene.characterIds)
      (nbi.getD scene.backgroundId) u hu

/-- Witness for C5: regenerating a one-character, one-background scene with
override lists succeeds and rewrites the scene record fields. -/
theorem edit_scene_regenerate_from_sources_witness :
    edit_scene (fun _ _ => .result (some "newImg")) (fun _ _ => .result none)
      [⟨"s1", "scene", "sd", ["cOld"], "bOld", "oldPrompt", some "oldImg", false⟩]
      [⟨"c1", "char", "cd", "cp", some "cImg", false⟩]
      [⟨"b1", "bg", "bd", "bp", some "bImg", false⟩]
      "s1" "place them" true (some ["c1"]) (some "b1")
      = (.ok (.scene ⟨"s1", "scene", "sd", ["c1"], "b1", "place them",
          some "newImg", true⟩),
         [⟨"place them", ["cImg", "bImg"]⟩], []) := by
  have h := (edit_scene_regenerate_from_sources (fun _ _ => .result (some "newImg"))
    (fun _ _ => .result none)
    [⟨"s1", "scene", "sd", ["cOld"], "bOld", "oldPrompt", some "oldImg", false⟩]
    [⟨"c1", "char", "cd", "cp", some "cImg", false⟩]
    [⟨"b1", "bg", "bd", "bp", some "bImg", false⟩]
    "s1" "place them" (some ["c1"]) (some "b1")
    ⟨"s1", "scene", "sd", ["cOld"], "bOld", "oldPrompt", some "oldImg", false⟩
    (by decide)).2.2.1 "newImg" (by decide) (by decide) (by rfl)
  rw [h]
  rfl

/-- C6: with regenerate_from_sources false on a found scene, a falsy scene
imageUrl yields the structured error record with message "Scene has no image
to edit" and neither generate nor edit_image is invoked; on success the
returned record keeps characterIds, backgroundId and prompt of the stored
scene unchanged. -/
theorem edit_scene_direct_edit (gen : String → List String → GenOutcome)
    (editI : String → String → GenOutcome)
    (scenes : List SceneRec) (characters backgrounds : List Entity)
    (scene_id ed : String) (scene : SceneRec)
    (hfind : scenes.find? (fun s => decide (s.id = scene_id)) = some scene) :
    (strTruthy scene.imageUrl = false →
      edit_scene gen editI scenes characters backgrounds scene_id ed false none none
        = (.ok (.error "Scene has no image to edit"), [], [])) ∧
    (∀ u eu, scene.imageUrl = some u → u ≠ "" →
      editI u (sceneEditInstruction ed) = .result (some eu) → eu ≠ "" →
      edit_scene gen editI scenes characters backgrounds scene_id ed false none none
        = (.ok (.scene { id := scene.id, name := scene.name,
                         description := scene.description,
                         characterIds := scene.characterIds,
                         backgroundId := scene.backgroundId,
                         prompt := scene.prompt, imageUrl := some eu,
                         edited := true }),
           [], [⟨u, sceneEditInstruction ed⟩])) := by
  rw [edit_scene_direct_eq gen editI scenes characters backgrounds scene_id ed none none
    scene hfind]
  constructor
  · intro hfalsy
    rcases himg : scene.imageUrl with _ | u
    · simp only [himg]
    · rw [himg] at hfalsy
      simp only [strTruthy, decide_eq_false_iff_not, not_not] at hfalsy
      subst hfalsy
      simp [himg]
  · intro u eu himg hu hedit heu
    simp only [himg]
    rw [if_neg hu, hedit]
    exact if_neg heu

/-- Witness for C6: a scene without an image errors before any synthesis
call. -/
theorem edit_scene_direct_edit_witness :
    edit_scene (fun _ _ => .result none) (fun _ _ => .result (some "x"))
      [⟨"s1", "scene", "sd", ["c1"], "b1", "p", none, false⟩] [] []
      "s1" "darker" false none none
      = (.ok (.error "Scene has no image to edit"), [], []) :=
  (edit_scene_direct_edit (fun _ _ => .result none) (fun _ _ => .result (some "x"))
    [⟨"s1", "scene", "sd", ["c1"], "b1", "p", none, false⟩] [] []
    "s1" "darker" ⟨"s1", "scene", "sd", ["c1"], "b1", "p", none, false⟩
    (by decide)).1 rfl

/-- C10: in the regenerate branch, a character id that does not resolve to a
stored character with a truthy image is silently dropped from the source
image set (equivalently, such an id is exactly one the resolution predicate
rejects), yet a successful regeneration returns the full supplied id list as
characterIds, so the scene may reference characters that contributed no
image. -/
theorem edit_scene_skips_unresolved (gen : String → List String → GenOutcome)
    (editI : String → String → GenOutcome)
    (scenes : List SceneRec) (characters backgrounds : List Entity)
    (scene_id ed : String) (char_ids : List String) (bg_id cid : String)
    (scene : SceneRec)
    (hfind : scenes.find? (fun s => decide (s.id = scene_id)) = some scene)
    (hcid : resolveCharImg characters cid = none) :
    (∀ l1 l2 : List String,
      (l1 ++ cid :: l2).filterMap (resolveCharImg characters)
        = (l1 ++ l2).filterMap (resolveCharImg characters)) ∧
    (∀ i : String, resolveCharImg characters i = none ↔ resolves characters i = false) ∧
    (∀ newUrl, cid ∈ char_ids → newUrl ≠ "" →
      sourceImages characters backgrounds char_ids bg_id ≠ [] →
      gen ed (sourceImages characters backgrounds char_ids bg_id)
        = .result (some newUrl) →
      edit_scene gen editI scenes characters backgrounds scene_id ed true
          (some char_ids) (some bg_id)
        = (.ok (.scene { id := scene.id, name := scene.name,
                         description := scene.description,
                         characterIds := char_ids, backgroundId := bg_id,
                         prompt := ed, imageUrl := some newUrl, edited := true }),
           [⟨ed, sourceImages characters backgrounds char_ids bg_id⟩], [])) := by
  refine ⟨?_, ?_, ?_⟩
  · intro l1 l2
    rw [List.filterMap_append, List.filterMap_append,
        List.filterMap_cons_none hcid]
  · intro i
    rw [resolveCharImg, resolves]
    rcases hfind2 : characters.find? (fun c => decide (c.id = i)) with _ | c
    · simp [hfind2]
    · simp only [hfind2]
      cases hst : strTruthy c.imageUrl
      · simp [hst]
      · rcases himg : c.imageUrl with _ | v
        · rw [himg, strTruthy] at hst
          exact absurd hst (by simp)
        · simp [hst, himg]
  · intro newUrl hmem hu hne hgen
    rw [edit_scene_regen_eq gen editI scenes characters backgrounds scene_id ed
      (some char_ids) (some bg_id) scene hfind]
    simp only [Option.getD_some]
    rw [if_neg hne, hgen]
    exact if_neg hu

/-- Witness for C10: a scene regenerated with an override list containing a
dangling character id succeeds, keeps the dangling id in characterIds, and
sends only the resolved background image. -/
theorem edit_scene_skips_unresolved_witness :
    edit_scene (fun _ _ => .result (some "img2")) (fun _ _ => .result none)
      [⟨"s1", "scene", "sd", [], "b1", "p", some "old", false⟩] []
      [⟨"b1", "bg", "bd", "bp", some "bImg", false⟩]
      "s1" "compose" true (some ["ghost"]) (some "b1")
      = (.ok (.scene ⟨"s1", "scene", "sd", ["ghost"], "b1", "compose",
          some "img2", true⟩),
         [⟨"compose", ["bImg"]⟩], []) := by
  have h := (edit_scene_skips_unresolved (fun _ _ => .result (some "img2"))
    (fun _ _ => .result none)
    [⟨"s1", "scene", "sd", [], "b1", "p", some "old", false⟩] []
    [⟨"b1", "bg", "bd", "bp", some "bImg", false⟩]
    "s1" "compose" ["ghost"] "b1" "ghost"
    ⟨"s1", "scene", "sd", [], "b1", "p", some "old", false⟩
    (by decide) (by rfl)).2.2 "img2" (by decide) (by decide) (by decide) (by rfl)
  rw [h]
  rfl

/-- A successful validation loop collects exactly the resolving character
images, in character_ids order. -/
theorem collectCharImages_ok_eq_filterMap (characters : List Entity) :
    ∀ ids us : List String,
      collectCharImages characters ids = .ok us →
      us = ids.filterMap (resolveCharImg characters) := by
  intro ids
  induction ids with
  | nil =>
    intro us h
    rw [collectCharImages] at h
    cases h
    rfl
  | cons hd rest ih =>
    intro us h
    rw [collectCharImages] at h
    rcases hfind : characters.find? (fun c => decide (c.id = hd)) with _ | c
    · simp only [hfind] at h
      cases h
    · simp only [hfind] at h
      rcases himg : c.imageUrl with _ | u
      · simp only [himg] at h
        cases h
      · simp only [himg] at h
        by_cases hu : u = ""
        · rw [if_pos hu] at h
          cases h
        · rw [if_neg hu] at h
          rcases hrec : collectCharImages characters rest with e | vs
          · simp only [hrec] at h
            cases h
          · simp only [hrec] at h
            cases h
            have hres : resolveCharImg characters hd = some u := by
              rw [resolveCharImg]
              simp only [hfind]
              rw [if_pos (by rw [himg, strTruthy]; simp [hu])]
              exact himg
            rw [List.filterMap_cons_some hres, ih vs hrec]

/-- C8: the synthesis request parts preserve the caller-supplied image order
with the text prompt as the trailing part; a successful create_scene
validation collects the character images in character_ids order; and the
generate call of create_scene receives exactly those images followed by the
background image. -/
theorem scene_request_part_order
    (read mime toPath : String → String) (prompt : String)
    (characters backgrounds : List Entity) (character_ids : List String)
    (background_id : String) (us : List String) (bg : Entity) (bu : String)
    (gen : String → List String → GenOutcome)
    (scene_id name description : String) :
    (∀ imgs : List String,
      buildRequestParts (fun p => some (read p)) mime toPath prompt imgs
        = imgs.map (fun img => Part.inlineData (mime (toPath (stripQuery img)))
            (read (toPath (stripQuery img)))) ++ [Part.text prompt]) ∧
    (collectCharImages characters character_ids = .ok us →
      us = character_ids.filterMap (resolveCharImg characters)) ∧
    (collectCharImages characters character_ids = .ok us →
      backgrounds.find? (fun b => decide (b.id = background_id)) = some bg →
      bg.imageUrl = some bu → bu ≠ "" →
      (create_scene gen characters backgrounds scene_id name description prompt
        character_ids background_id).2 = [⟨prompt, us ++ [bu]⟩]) := by
  refine ⟨?_, ?_, ?_⟩
  · intro imgs
    rw [buildRequestParts]
    congr 1
    induction imgs with
    | nil => rfl
    | cons a l ih =>
      rw [List.map_cons, ← ih]
      exact List.filterMap_cons_some rfl
  · exact collectCharImages_ok_eq_filterMap characters character_ids us
  · intro hcol hfind himg hbu
    rw [create_scene]
    simp only [hcol, hfind, himg]
    rw [if_neg hbu]
    split
    · rfl
    · rfl

/-- Witness for C8: a two-character scene sends the two character images in
order, then the background image, to generate. -/
theorem scene_request_part_order_witness :
    (create_scene (fun _ _ => GenOutcome.result (some "scn"))
      [⟨"c1", "n1", "d1", "p1", some "u1", false⟩,
       ⟨"c2", "n2", "d2", "p2", some "u2", false⟩]
      [⟨"b1", "nb", "db", "pb", some "ub", false⟩]
      "sid" "sn" "sd" "sp" ["c1", "c2"] "b1").2
      = [⟨"sp", ["u1", "u2", "ub"]⟩] :=
  (scene_request_part_order (fun s => s) (fun s => s) (fun s => s) "sp"
    [⟨"c1", "n1", "d1", "p1", some "u1", false⟩,
     ⟨"c2", "n2", "d2", "p2", some "u2", false⟩]
    [⟨"b1", "nb", "db", "pb", some "ub", false⟩]
    ["c1", "c2"] "b1" ["u1", "u2"] ⟨"b1", "nb", "db", "pb", some "ub", false⟩ "ub"
    (fun _ _ => GenOutcome.result (some "scn")) "sid" "sn" "sd").2.2
    (by rfl) (by decide) rfl (by decide)

end SceneCreator
